import Mathlib

/-
  Verification of the x13s-camera-led monitor (src/main.rs).

  The program subscribes to a device registry, latches the front camera
  node by a three-field property match, maps its state to an LED
  brightness command, and falls back to a desktop notification when the
  LED command fails.  The definitions below are a shallow embedding of
  the callbacks and data structures of src/main.rs; external bus calls
  are modelled as emitted actions, and their success or failure as
  boolean parameters.
-/

namespace X13sCameraLed

/-- Constant from src/main.rs line 15: product name of the target camera. -/
def X13S_CAMERA_PRODUCT_NAME : String := "ov5675"

/-- Constant from src/main.rs line 16: the LED device name. -/
def X13S_LED_DEVICE_NAME : String := "white:camera-indicator"

/-- Constant from src/main.rs line 17: brightness level meaning ON. -/
def X13S_LED_BRIGHTNESS_ON : Nat := 1

/-- Constant from src/main.rs line 18: brightness level meaning OFF. -/
def X13S_LED_BRIGHTNESS_OFF : Nat := 0

/-- The pipewire node state enum (pipewire::node::NodeState): Error
carries a message; the other four are unit variants. -/
inductive NodeState where
  | error (msg : String)
  | creating
  | suspended
  | idle
  | running
deriving DecidableEq, Repr

/-- Rust Debug rendering of a NodeState value, as produced by the
format string at src/main.rs line 140 (escaping inside the Error
message is not modelled; the claims only depend on the unit variants). -/
def NodeState.debugStr : NodeState → String
  | NodeState.error m => "Error(\"" ++ m ++ "\")"
  | NodeState.creating => "Creating"
  | NodeState.suspended => "Suspended"
  | NodeState.idle => "Idle"
  | NodeState.running => "Running"

/-- The string-keyed property dictionary attached to a node info event. -/
structure Props where
  entries : List (String × String)
deriving DecidableEq, Repr

/-- Dictionary lookup, the props.get of the source. -/
def Props.get (p : Props) (key : String) : Option String :=
  (p.entries.find? (fun e => e.1 == key)).map (fun e => e.2)

/-- The three-field identification predicate evaluated inline at
src/main.rs lines 120-124: media.role, api.libcamera.location and
device.product.name must all match exactly. -/
def frontCameraMatch (props : Props) : Bool :=
  (p1 : Bool) && (p2 : Bool) && (p3 : Bool)
where
  p1 := props.get "media.role" == some "Camera"
  p2 := props.get "api.libcamera.location" == some "front"
  p3 := props.get "device.product.name" == some X13S_CAMERA_PRODUCT_NAME

/-- Lifts frontCameraMatch over the optional props of an info event:
absent props never match (src/main.rs line 119 skips the whole check). -/
def propsMatch : Option Props → Bool
  | some props => frontCameraMatch props
  | none => false

/-- A node info event as seen by the info callback: the numeric object
identity, the optional property dictionary and the node state. -/
structure NodeInfo where
  id : Nat
  props : Option Props
  state : NodeState
deriving DecidableEq, Repr

/-- The SetBrightness bus call issued by set_led_brightness
(src/main.rs lines 197-203), reduced to its argument tuple. -/
structure SetBrightnessCall where
  category : String
  device : String
  level : Nat
deriving DecidableEq, Repr

/-- The argument tuple of the SetBrightness call for a given
brightness: category leds, the fixed device name, the level. -/
def setBrightnessCall (brightness : Nat) : SetBrightnessCall :=
  { category := "leds", device := X13S_LED_DEVICE_NAME, level := brightness }

/-- The Notify bus call issued by the notification function
(src/main.rs lines 207-226), reduced to its argument tuple (the empty
hints map is omitted). -/
structure NotifyCall where
  app_id : String
  replace_id : Nat
  icon : String
  summary : String
  body : String
  actions : List String
  timeout : Nat
deriving DecidableEq, Repr

/-- The argument tuple of the Notify call built by the notification
function for a given summary and message. -/
def notification (summary message : String) : NotifyCall :=
  { app_id := "org.u7fa9.x13s-camera-led", replace_id := 42,
    icon := "camera-web-symbolic", summary := summary, body := message,
    actions := [], timeout := 0 }

/-- Observable side effects of a callback: log lines and outgoing bus
calls.  Debug-level logging is not modelled. -/
inductive Action where
  | logInfo (msg : String)
  | logError (msg : String)
  | setLed (call : SetBrightnessCall)
  | notify (call : NotifyCall)
deriving DecidableEq, Repr

/-- The SetBrightness calls contained in an action trace, in order. -/
def setLedCalls : List Action → List SetBrightnessCall
  | [] => []
  | Action.setLed c :: rest => c :: setLedCalls rest
  | _ :: rest => setLedCalls rest

/-- The Notify calls contained in an action trace, in order. -/
def notifyCalls : List Action → List NotifyCall
  | [] => []
  | Action.notify c :: rest => c :: notifyCalls rest
  | _ :: rest => notifyCalls rest

/-- The error-severity log lines contained in an action trace. -/
def errorLogs : List Action → List String
  | [] => []
  | Action.logError m :: rest => m :: errorLogs rest
  | _ :: rest => errorLogs rest

/-- The brightness chosen from a node state by the match at
src/main.rs lines 131-134: Running maps to ON, every other state to
OFF. -/
def ledBrightness : NodeState → Nat
  | NodeState.running => X13S_LED_BRIGHTNESS_ON
  | _ => X13S_LED_BRIGHTNESS_OFF

/-- The camera_id update performed at src/main.rs lines 119-128: when
props are present and the three-field predicate matches, camera_id is
replaced by the id of this event; otherwise it is left unchanged.
Note the source performs this on every info event, with no check that
camera_id is still None. -/
def updateLatch (camera_id : Option Nat) (info : NodeInfo) : Option Nat :=
  match info.props with
  | some props => if frontCameraMatch props then some info.id else camera_id
  | none => camera_id

/-- The effect trace of the forwarding branch of the info callback
(src/main.rs lines 130-147): log the state, log and issue the
brightness call; when the call fails, log the failure and attempt one
notification whose body is the Debug rendering of the state; when the
notification fails too, log that as well.  setOk and notifOk stand for
the results reported by the two external bus calls. -/
def forwardActions (info : NodeInfo) (setOk notifOk : Bool) : List Action :=
  (base : List Action) ++
    (if setOk then [] else
      [Action.logError "failed to set LED brightness",
       Action.notify (notification "Camera state changed" info.state.debugStr)] ++
      (if notifOk then [] else [Action.logError "failed to send notification"]))
where
  base :=
    [Action.logInfo ("camera state: " ++ info.state.debugStr),
     Action.logInfo ("set led brightness: " ++ toString (ledBrightness info.state)),
     Action.setLed (setBrightnessCall (ledBrightness info.state))]

/-- The node info callback (src/main.rs lines 118-151): first update
the latch from the props, then, when the (updated) camera_id equals the
id of this event, run the forwarding branch; otherwise do nothing.
Returns the new camera_id and the emitted actions. -/
def onNodeInfo (camera_id : Option Nat) (info : NodeInfo) (setOk notifOk : Bool) :
    Option Nat × List Action :=
  if updateLatch camera_id info = some info.id then
    (updateLatch camera_id info, forwardActions info setOk notifOk)
  else
    (updateLatch camera_id info, [])

/-- The global_remove callback (src/main.rs lines 176-181): when the
removed id equals the latched camera_id the latch is cleared (with an
info log); otherwise nothing happens.  No bus call is made. -/
def onGlobalRemove (camera_id : Option Nat) (id : Nat) : Option Nat × List Action :=
  if camera_id = some id then
    (none, [Action.logInfo ("id:" ++ toString id ++ " my camera removed")])
  else
    (camera_id, [])

/-- The Nodes bookkeeping structure (src/main.rs lines 20-23): a map
from proxy id to the bound node and a map from proxy id to its listener
handles.  The HashMaps are embedded as key-unique association lists;
node and listener handles are abstract Nat tokens. -/
structure Nodes where
  nodes_t : List (Nat × Nat)
  listeners : List (Nat × List Nat)
deriving DecidableEq, Repr

/-- Association-list lookup: the HashMap get. -/
def lookupA {V : Type} : List (Nat × V) → Nat → Option V
  | [], _ => none
  | (k, v) :: rest, key => if k = key then some v else lookupA rest key

/-- Association-list erase: the HashMap remove (drops every entry with
the key, which on key-unique lists is the single entry). -/
def eraseA {V : Type} : List (Nat × V) → Nat → List (Nat × V)
  | [], _ => []
  | (k, v) :: rest, key =>
      if k = key then eraseA rest key else (k, v) :: eraseA rest key

/-- Association-list insert with HashMap::insert semantics: the new
binding replaces any previous binding of the key. -/
def insertA {V : Type} (m : List (Nat × V)) (key : Nat) (v : V) : List (Nat × V) :=
  (key, v) :: eraseA m key

/-- The empty Nodes value (Nodes::new, src/main.rs lines 26-31). -/
def Nodes.new : Nodes :=
  { nodes_t := [], listeners := [] }

/-- Nodes::add_node_t (src/main.rs lines 32-42): store the node under
its proxy id — HashMap::insert, which silently replaces any previous
entry — and push the listener onto the (possibly already existing)
listener vector for that id.  The proxy id is passed explicitly here;
the source reads it from the node. -/
def Nodes.add_node_t (ns : Nodes) (proxy_id node_t listener : Nat) : Nodes :=
  { nodes_t := insertA ns.nodes_t proxy_id node_t,
    listeners :=
      insertA ns.listeners proxy_id
        ((lookupA ns.listeners proxy_id).getD [] ++ [listener]) }

/-- Nodes::add_proxy_listener (src/main.rs lines 43-46). -/
def Nodes.add_proxy_listener (ns : Nodes) (proxy_id listener : Nat) : Nodes :=
  { ns with
    listeners :=
      insertA ns.listeners proxy_id
        ((lookupA ns.listeners proxy_id).getD [] ++ [listener]) }

/-- Nodes::remove (src/main.rs lines 47-50): drop the node entry and
the listener entry for the proxy id. -/
def Nodes.remove (ns : Nodes) (proxy_id : Nat) : Nodes :=
  { nodes_t := eraseA ns.nodes_t proxy_id,
    listeners := eraseA ns.listeners proxy_id }

/-- State of the monitor loop relevant to the core error callback: is
the loop still running, and the shared result cell. -/
structure MonitorState where
  running : Bool
  result : Except String Unit

/-- The core error callback (src/main.rs lines 85-95): on sentinel id
0 the loop is quit and the result cell is set to the error; any other
id leaves the state untouched (the message is only logged). -/
def onCoreError (s : MonitorState) (id : Nat) (message : String) : MonitorState :=
  if id = 0 then
    { running := false, result := Except.error ("pipewire error: " ++ message) }
  else
    s

/-- The exit code derived from the monitor result by main via anyhow:
ok exits 0, an error exits nonzero. -/
def exitCode : Except String Unit → Nat
  | Except.ok _ => 0
  | Except.error _ => 1

/-- A zbus Result of connecting to the system bus: either an error
message or a connection handle (abstract Nat token). -/
def ConnResult : Type := Except String Nat

/-- The std OnceLock cell holding the cached connection result
(src/main.rs line 192). -/
structure OnceCell (α : Type) where
  value : Option α

/-- OnceLock::get_or_init under the single-threaded loop: return the
stored value when present, otherwise run the initializer once and
store its result — including an error result. -/
def OnceCell.get_or_init {α : Type} (c : OnceCell α) (f : Unit → α) : α × OnceCell α :=
  match c.value with
  | some v => (v, c)
  | none => (f (), { value := some (f ()) })

/-- set_led_brightness (src/main.rs lines 191-205) up to the bus call:
acquire the cached system-bus connection via get_or_init, and when the
connection result is an error propagate it; otherwise produce the
SetBrightness call that is issued.  connect_system stands for
Connection::system; the cell is threaded explicitly. -/
def set_led_brightness (cell : OnceCell ConnResult)
    (connect_system : Unit → ConnResult) (brightness : Nat) :
    Except String SetBrightnessCall × OnceCell ConnResult :=
  match cell.get_or_init connect_system with
  | (Except.error _, cell2) => (Except.error "error connecting to system bus", cell2)
  | (Except.ok _, cell2) => (Except.ok (setBrightnessCall brightness), cell2)

/-- A property map matching all three identification fields (the front
ov5675 camera of scenario A in the design notes). -/
def sampleProps : Props :=
  { entries :=
      [("media.role", "Camera"),
       ("api.libcamera.location", "front"),
       ("device.product.name", "ov5675")] }

/-- A property map with all three fields present but a non-matching
placement value (rear instead of front). -/
def rearProps : Props :=
  { entries :=
      [("media.role", "Camera"),
       ("api.libcamera.location", "rear"),
       ("device.product.name", "ov5675")] }

/- ------------------------------------------------------------------ -/
/- Helper lemmas                                                      -/
/- ------------------------------------------------------------------ -/

theorem onNodeInfo_fst (cid : Option Nat) (info : NodeInfo) (sOk nOk : Bool) :
    (onNodeInfo cid info sOk nOk).1 = updateLatch cid info := by
  unfold onNodeInfo
  split <;> rfl

theorem onNodeInfo_snd_fwd (cid : Option Nat) (info : NodeInfo) (sOk nOk : Bool)
    (h : updateLatch cid info = some info.id) :
    (onNodeInfo cid info sOk nOk).2 = forwardActions info sOk nOk := by
  unfold onNodeInfo
  simp [h]

theorem onNodeInfo_snd_nofwd (cid : Option Nat) (info : NodeInfo) (sOk nOk : Bool)
    (h : updateLatch cid info ≠ some info.id) :
    (onNodeInfo cid info sOk nOk).2 = [] := by
  unfold onNodeInfo
  simp [h]

theorem updateLatch_of_nomatch (cid : Option Nat) (info : NodeInfo)
    (h : propsMatch info.props = false) : updateLatch cid info = cid := by
  rcases hp : info.props with _ | p
  · simp [updateLatch, hp]
  · have hm : frontCameraMatch p = false := by simpa [propsMatch, hp] using h
    simp [updateLatch, hp, hm]

theorem updateLatch_of_match (cid : Option Nat) (info : NodeInfo)
    (h : propsMatch info.props = true) : updateLatch cid info = some info.id := by
  rcases hp : info.props with _ | p
  · simp [propsMatch, hp] at h
  · have hm : frontCameraMatch p = true := by simpa [propsMatch, hp] using h
    simp [updateLatch, hp, hm]

theorem setLedCalls_forwardActions (info : NodeInfo) (sOk nOk : Bool) :
    setLedCalls (forwardActions info sOk nOk) =
      [setBrightnessCall (ledBrightness info.state)] := by
  cases sOk <;> cases nOk <;> rfl

theorem lookupA_insertA {V : Type} (m : List (Nat × V)) (k : Nat) (v : V) :
    lookupA (insertA m k v) k = some v := by
  simp [insertA, lookupA]

theorem lookupA_eraseA {V : Type} (m : List (Nat × V)) (k : Nat) :
    lookupA (eraseA m k) k = none := by
  induction m with
  | nil => rfl
  | cons e rest ih =>
      obtain ⟨a, b⟩ := e
      by_cases hk : a = k
      · simp [eraseA, hk, ih]
      · simp [eraseA, lookupA, hk, ih]

theorem eraseA_of_lookupA_none {V : Type} (m : List (Nat × V)) (k : Nat)
    (h : lookupA m k = none) : eraseA m k = m := by
  induction m with
  | nil => rfl
  | cons e rest ih =>
      obtain ⟨a, b⟩ := e
      by_cases hk : a = k
      · simp [lookupA, hk] at h
      · simp [lookupA, hk] at h
        simp [eraseA, hk, ih h]

/- ------------------------------------------------------------------ -/
/- Claim theorems                                                     -/
/- ------------------------------------------------------------------ -/

/-- Claim C1: whenever the info callback forwards an observed state
(the updated latch equals the event id), exactly one SetBrightness
call is issued; its category is leds, its device is the fixed name
white:camera-indicator, and its level is ON exactly when the state is
Running and OFF for every other state, with ON = 1 and OFF = 0. -/
theorem led_command_exactly_one_and_correct (cid : Option Nat) (info : NodeInfo)
    (sOk nOk : Bool) (h : (onNodeInfo cid info sOk nOk).1 = some info.id) :
    setLedCalls (onNodeInfo cid info sOk nOk).2 =
      [setBrightnessCall (ledBrightness info.state)] ∧
    (setBrightnessCall (ledBrightness info.state)).category = "leds" ∧
    (setBrightnessCall (ledBrightness info.state)).device = "white:camera-indicator" ∧
    (ledBrightness info.state = X13S_LED_BRIGHTNESS_ON ↔ info.state = NodeState.running) ∧
    (info.state ≠ NodeState.running →
      ledBrightness info.state = X13S_LED_BRIGHTNESS_OFF) ∧
    X13S_LED_BRIGHTNESS_ON = 1 ∧ X13S_LED_BRIGHTNESS_OFF = 0 := by
  have hlat : updateLatch cid info = some info.id :=
    (onNodeInfo_fst cid info sOk nOk).symm.trans h
  refine ⟨?_, rfl, rfl, ?_, ?_, rfl, rfl⟩
  · rw [onNodeInfo_snd_fwd cid info sOk nOk hlat, setLedCalls_forwardActions]
  · cases info.state <;>
      simp [ledBrightness, X13S_LED_BRIGHTNESS_ON, X13S_LED_BRIGHTNESS_OFF]
  · intro hne
    rcases hst : info.state with m | _ | _ | _ | _ <;>
      simp_all [ledBrightness, X13S_LED_BRIGHTNESS_ON, X13S_LED_BRIGHTNESS_OFF]

/-- Witness for C1 at a concrete input: a fresh latch on id 5 with
matching props and state Running issues exactly the ON command. -/
theorem led_command_exactly_one_and_correct_witness :
    setLedCalls (onNodeInfo none ⟨5, some sampleProps, NodeState.running⟩ true true).2 =
      [setBrightnessCall (ledBrightness NodeState.running)] :=
  (led_command_exactly_one_and_correct none ⟨5, some sampleProps, NodeState.running⟩
    true true (by rfl)).1

/-- Claim C2 counterexample: with the latch already on id 5, an info
event from id 5 whose property map has a non-matching placement value
(rear) still issues a SetBrightness command, refuting the part of the
claim that says no indicator command is issued for a non-matching
property map. -/
theorem nonmatching_props_command_counterexample :
    frontCameraMatch rearProps = false ∧
    setLedCalls (onNodeInfo (some 5) ⟨5, some rearProps, NodeState.running⟩ true true).2 =
      [setBrightnessCall X13S_LED_BRIGHTNESS_ON] ∧
    [setBrightnessCall X13S_LED_BRIGHTNESS_ON] ≠ ([] : List SetBrightnessCall) := by
  refine ⟨rfl, rfl, ?_⟩
  decide

/-- Claim C2 amended: a non-matching (or field-lacking) property map
never latches — the latch is unchanged — and, unless the event object
is already the latched device, no action at all is emitted for that
event. -/
theorem nonmatching_props_no_latch_no_command (cid : Option Nat) (info : NodeInfo)
    (sOk nOk : Bool) (h : propsMatch info.props = false) :
    (onNodeInfo cid info sOk nOk).1 = cid ∧
    (cid ≠ some info.id → (onNodeInfo cid info sOk nOk).2 = []) := by
  have hup := updateLatch_of_nomatch cid info h
  constructor
  · rw [onNodeInfo_fst]
    exact hup
  · intro hne
    exact onNodeInfo_snd_nofwd cid info sOk nOk (by rw [hup]; exact hne)

/-- Witness for the amended C2: latch on 7, non-matching event from 5
leaves the latch at 7 and emits nothing. -/
theorem nonmatching_props_no_latch_no_command_witness :
    (onNodeInfo (some 7) ⟨5, some rearProps, NodeState.running⟩ true true).1 = some 7 ∧
    (onNodeInfo (some 7) ⟨5, some rearProps, NodeState.running⟩ true true).2 = [] :=
  have t := nonmatching_props_no_latch_no_command (some 7)
    ⟨5, some rearProps, NodeState.running⟩ true true (by rfl)
  ⟨t.1, t.2 (by decide)⟩

/-- Claim C3 counterexample: with id 5 latched, an info event from the
different object id 9 whose props match the predicate changes the
latched identity to 9, refuting the claim that the latch never changes
while the latched object remains. -/
theorem relatch_counterexample :
    (onNodeInfo (some 5) ⟨9, some sampleProps, NodeState.idle⟩ true true).1 = some 9 ∧
    (some 9 : Option Nat) ≠ some 5 := by
  refine ⟨rfl, ?_⟩
  decide

/-- Claim C3 amended: the identification predicate is re-evaluated on
every info event, also while a device is latched; any info event whose
props match replaces the latched identity with that event id. -/
theorem matching_props_always_relatch (cid : Option Nat) (info : NodeInfo)
    (sOk nOk : Bool) (h : propsMatch info.props = true) :
    (onNodeInfo cid info sOk nOk).1 = some info.id := by
  rw [onNodeInfo_fst]
  exact updateLatch_of_match cid info h

/-- Witness for the amended C3: a matching event from id 9 re-latches
from 5 to 9. -/
theorem matching_props_always_relatch_witness :
    (onNodeInfo (some 5) ⟨9, some sampleProps, NodeState.running⟩ false false).1 = some 9 :=
  matching_props_always_relatch (some 5) ⟨9, some sampleProps, NodeState.running⟩
    false false (by rfl)

/-- Claim C4 counterexample: a second add_node_t with the same proxy
id before a remove is not rejected — it silently succeeds, storing the
new node (20 overwrites 10) and appending the second listener, and the
mapping is changed rather than left intact. -/
theorem duplicate_insert_counterexample :
    lookupA ((Nodes.new.add_node_t 1 10 100).add_node_t 1 20 200).nodes_t 1 = some 20 ∧
    lookupA ((Nodes.new.add_node_t 1 10 100).add_node_t 1 20 200).listeners 1 =
      some [100, 200] ∧
    (Nodes.new.add_node_t 1 10 100).add_node_t 1 20 200 ≠ Nodes.new.add_node_t 1 10 100 := by
  refine ⟨rfl, rfl, ?_⟩
  decide

/-- Claim C4 amended: a duplicate add_node_t on the same identity
silently succeeds: the stored node reference is replaced by the new
one and the new listener is appended to the existing listener list. -/
theorem duplicate_insert_overwrites (ns : Nodes) (id n1 l1 n2 l2 : Nat) :
    lookupA ((ns.add_node_t id n1 l1).add_node_t id n2 l2).nodes_t id = some n2 ∧
    lookupA ((ns.add_node_t id n1 l1).add_node_t id n2 l2).listeners id =
      some ((lookupA ns.listeners id).getD [] ++ [l1, l2]) := by
  constructor
  · simp [Nodes.add_node_t, lookupA_insertA]
  · simp [Nodes.add_node_t, lookupA_insertA]

/-- Claim C5: add_node_t followed by remove on the same identity
leaves no node entry and no listener entry for that identity, and
remove on an identity absent from both maps leaves the Nodes value
unchanged. -/
theorem insert_then_remove_clean (ns : Nodes) (id n l : Nat) :
    lookupA ((ns.add_node_t id n l).remove id).nodes_t id = none ∧
    lookupA ((ns.add_node_t id n l).remove id).listeners id = none ∧
    (lookupA ns.nodes_t id = none → lookupA ns.listeners id = none →
      ns.remove id = ns) := by
  refine ⟨?_, ?_, ?_⟩
  · simp [Nodes.remove, Nodes.add_node_t, lookupA_eraseA]
  · simp [Nodes.remove, Nodes.add_node_t, lookupA_eraseA]
  · intro h1 h2
    cases ns with
    | mk nt ls =>
        simp only [Nodes.remove] at h1 h2 ⊢
        simp [eraseA_of_lookupA_none _ _ h1, eraseA_of_lookupA_none _ _ h2]

/-- Witness for C5 at a concrete input: insert then remove of id 3 on
the empty Nodes leaves nothing, and remove of an absent id is a
no-op. -/
theorem insert_then_remove_clean_witness :
    lookupA ((Nodes.new.add_node_t 3 7 9).remove 3).nodes_t 3 = none ∧
    Nodes.new.remove 3 = Nodes.new :=
  have t := insert_then_remove_clean Nodes.new 3 7 9
  ⟨t.1, t.2.2 rfl rfl⟩

/-- Claim C6: the global_remove callback clears the latch exactly when
the removed id equals the latched id, leaves it unchanged otherwise,
and in both cases emits no SetBrightness and no Notify call, so the
indicator keeps its last-set level. -/
theorem remove_clears_only_matching_latch (cid : Option Nat) (id : Nat) :
    (onGlobalRemove cid id).1 = (if cid = some id then none else cid) ∧
    setLedCalls (onGlobalRemove cid id).2 = [] ∧
    notifyCalls (onGlobalRemove cid id).2 = [] := by
  by_cases hc : cid = some id
  · simp [onGlobalRemove, hc, setLedCalls, notifyCalls]
  · simp [onGlobalRemove, hc, setLedCalls, notifyCalls]

/-- Claim C7: on a forwarded state, a successful LED call posts no
notification and logs no error; a failed LED call logs the failure and
attempts exactly one notification with the fixed summary and the Debug
rendering of the state as body; a failed notification is logged as
well and nothing further happens.  Running renders as the string
Running. -/
theorem reconcile_failure_notification (cid : Option Nat) (info : NodeInfo)
    (sOk nOk : Bool) (h : (onNodeInfo cid info sOk nOk).1 = some info.id) :
    notifyCalls (onNodeInfo cid info sOk nOk).2 =
      (if sOk then [] else
        [notification "Camera state changed" info.state.debugStr]) ∧
    errorLogs (onNodeInfo cid info sOk nOk).2 =
      (if sOk then [] else
        if nOk then ["failed to set LED brightness"]
        else ["failed to set LED brightness", "failed to send notification"]) ∧
    NodeState.debugStr NodeState.running = "Running" := by
  have hlat : updateLatch cid info = some info.id :=
    (onNodeInfo_fst cid info sOk nOk).symm.trans h
  rw [onNodeInfo_snd_fwd cid info sOk nOk hlat]
  refine ⟨?_, ?_, rfl⟩
  · cases sOk <;> cases nOk <;> rfl
  · cases sOk <;> cases nOk <;> rfl

/-- Witness for C7: the latched device id 5 reports Running, the LED
call and the notification both fail; exactly one notification with
body Running is attempted and both failures are logged. -/
theorem reconcile_failure_notification_witness :
    notifyCalls (onNodeInfo (some 5) ⟨5, none, NodeState.running⟩ false false).2 =
      [notification "Camera state changed" "Running"] ∧
    errorLogs (onNodeInfo (some 5) ⟨5, none, NodeState.running⟩ false false).2 =
      ["failed to set LED brightness", "failed to send notification"] := by
  have t := reconcile_failure_notification (some 5) ⟨5, none, NodeState.running⟩
    false false (by rfl)
  exact ⟨by simpa [NodeState.debugStr] using t.1, by simpa using t.2.1⟩

/-- Claim C8: a core error event with sentinel id 0 stops the loop and
makes the message the terminal result, with a nonzero exit code; an
error event with any other id leaves the monitor state unchanged. -/
theorem core_error_fatal_iff_zero (s : MonitorState) (id : Nat) (message : String) :
    (id = 0 → onCoreError s id message =
        { running := false,
          result := Except.error ("pipewire error: " ++ message) } ∧
      exitCode (onCoreError s id message).result ≠ 0) ∧
    (id ≠ 0 → onCoreError s id message = s) := by
  constructor
  · intro h0
    constructor
    · simp [onCoreError, h0]
    · simp [onCoreError, h0, exitCode]
  · intro hne
    simp [onCoreError, hne]

/-- Witness for C8: id 0 with message boom stops the loop and stores
the error; id 7 changes nothing. -/
theorem core_error_fatal_iff_zero_witness :
    onCoreError ⟨true, Except.ok ()⟩ 0 "boom" =
      ⟨false, Except.error ("pipewire error: " ++ "boom")⟩ ∧
    onCoreError ⟨true, Except.ok ()⟩ 7 "glitch" = ⟨true, Except.ok ()⟩ :=
  ⟨((core_error_fatal_iff_zero ⟨true, Except.ok ()⟩ 0 "boom").1 rfl).1,
   (core_error_fatal_iff_zero ⟨true, Except.ok ()⟩ 7 "glitch").2 (by decide)⟩

/-- Claim C9: starting from the empty cell, the first set call stores
the connection result — ok or error — in the cell; a second set call
leaves the cell untouched and behaves identically for any connect
function, so a failed connection is cached and never re-attempted; in
particular when the first connect fails, both calls report the
connection error. -/
theorem connection_cached_once (f g : Unit → ConnResult) (b b2 : Nat) :
    (set_led_brightness { value := none } f b).2 = { value := some (f ()) } ∧
    set_led_brightness (set_led_brightness { value := none } f b).2 g b2 =
      set_led_brightness (set_led_brightness { value := none } f b).2 f b2 ∧
    (set_led_brightness (set_led_brightness { value := none } f b).2 g b2).2 =
      (set_led_brightness { value := none } f b).2 ∧
    (∀ e : String, f () = Except.error e →
      (set_led_brightness { value := none } f b).1 =
        Except.error "error connecting to system bus" ∧
      (set_led_brightness (set_led_brightness { value := none } f b).2 g b2).1 =
        Except.error "error connecting to system bus") := by
  rcases hf : f () with e | c <;>
    simp [set_led_brightness, OnceCell.get_or_init, hf]

/-- Witness for C9: a failing connect is cached; the second call
reports the connection error even though its connect function would
succeed, showing no reconnection is attempted. -/
theorem connection_cached_once_witness :
    (set_led_brightness { value := none } (fun _ => Except.error "no bus") 1).1 =
      Except.error "error connecting to system bus" ∧
    (set_led_brightness
        (set_led_brightness { value := none } (fun _ => Except.error "no bus") 1).2
        (fun _ => Except.ok 3) 0).1 =
      Except.error "error connecting to system bus" :=
  have t := connection_cached_once (fun _ => Except.error "no bus")
    (fun _ => Except.ok 3) 1 0
  ⟨(t.2.2.2 "no bus" rfl).1, (t.2.2.2 "no bus" rfl).2⟩

/-- Claim C10: with non-matching props, forwarding is decided by
identity equality alone: an event whose id equals the latch issues the
SetBrightness command for its state anyway, and an event whose id
differs from the latch emits nothing. -/
theorem forwarding_by_identity_only (cid : Option Nat) (info : NodeInfo)
    (sOk nOk : Bool) (h : propsMatch info.props = false) :
    (cid = some info.id →
      setLedCalls (onNodeInfo cid info sOk nOk).2 =
        [setBrightnessCall (ledBrightness info.state)]) ∧
    (cid ≠ some info.id → (onNodeInfo cid info sOk nOk).2 = []) := by
  have hup := updateLatch_of_nomatch cid info h
  constructor
  · intro he
    have hlat : updateLatch cid info = some info.id := by rw [hup, he]
    rw [onNodeInfo_snd_fwd cid info sOk nOk hlat, setLedCalls_forwardActions]
  · intro hne
    exact onNodeInfo_snd_nofwd cid info sOk nOk (by rw [hup]; exact hne)

/-- Witness for C10: the latched id 5 with degraded (rear) props and
state Idle still gets the OFF command, while the unlatched id 5 seen
from a latch on 9 emits nothing. -/
theorem forwarding_by_identity_only_witness :
    setLedCalls (onNodeInfo (some 5) ⟨5, some rearProps, NodeState.idle⟩ true true).2 =
      [setBrightnessCall (ledBrightness NodeState.idle)] ∧
    (onNodeInfo (some 9) ⟨5, some rearProps, NodeState.idle⟩ true true).2 = [] :=
  ⟨(forwarding_by_identity_only (some 5) ⟨5, some rearProps, NodeState.idle⟩
      true true (by rfl)).1 rfl,
   (forwarding_by_identity_only (some 9) ⟨5, some rearProps, NodeState.idle⟩
      true true (by rfl)).2 (by decide)⟩

end X13sCameraLed
